import Mathlib

/-!
Shallow embedding of the bookmark-organizer backend
(`server/storage.ts` — class `MemStorage` — and `server/routes.ts`,
with the zod insert schemas of `shared/schema.ts`).

JavaScript `Map` objects are modelled as association lists in insertion
order: `set` updates in place or appends, `delete` filters, `values()`
is the list of second components.  JSON request bodies are modelled by
`JVal`/`JObj`; the zod schemas become `parse…` functions returning
`Option`.  The settings record is kept as a raw JSON object because
`PATCH /api/settings` spreads the unvalidated request body into it.
-/

namespace Croods

/-- A JSON value as produced by the body parser (objects/arrays are not
needed by any schema field, so they are omitted). -/
inductive JVal where
  | jstr (s : String)
  | jnum (n : Int)
  | jbool (b : Bool)
  | jnull
deriving DecidableEq

/-- A JSON object: fields in order.  `JSON.parse` output has no
duplicate keys. -/
abbrev JObj := List (String × JVal)

/-- Field lookup in a JSON object. -/
def jlookup (k : String) (o : JObj) : Option JVal :=
  (o.find? (fun p => p.1 == k)).map (fun p => p.2)

/-- JavaScript object spread `{...base, ...patch}`: keys of `base` keep
their position, values overridden by `patch` when present; keys only in
`patch` are appended in order. -/
def jsonSpread (base patch : JObj) : JObj :=
  base.map (fun p =>
    match patch.find? (fun q => q.1 == p.1) with
    | some q => (p.1, q.2)
    | none => p)
  ++ patch.filter (fun q => !(base.any (fun p => p.1 == q.1)))

/-! ### Record types (shared/schema.ts)

`null` and `undefined` are collapsed to `none` in stored records; in
patches (`Partial<Insert…>`) the outer `Option` is key presence and the
inner one nullability, so that an absent key and an explicit `null` are
distinguished as the object spread distinguishes them. -/

structure Tab where
  id : Int
  name : String
  order : Int
  backgroundImage : Option String
  autoSwitch : Option Bool
deriving DecidableEq

structure InsertTab where
  name : String
  order : Int
  backgroundImage : Option String
  autoSwitch : Option Bool
deriving DecidableEq

structure TabPatch where
  name : Option String
  order : Option Int
  backgroundImage : Option (Option String)
  autoSwitch : Option (Option Bool)
deriving DecidableEq

structure Bookmark where
  id : Int
  tabId : Int
  url : String
  title : String
  favicon : Option String
  sectionName : String
  order : Int
deriving DecidableEq

structure InsertBookmark where
  tabId : Int
  url : String
  title : String
  favicon : Option String
  sectionName : String
  order : Int
deriving DecidableEq

structure BookmarkPatch where
  tabId : Option Int
  url : Option String
  title : Option String
  favicon : Option (Option String)
  sectionName : Option String
  order : Option Int
deriving DecidableEq

structure Section where
  id : Int
  tabId : Int
  name : String
  color : String
  order : Int
deriving DecidableEq

structure InsertSection where
  tabId : Int
  name : String
  color : String
  order : Int
deriving DecidableEq

structure SectionPatch where
  tabId : Option Int
  name : Option String
  color : Option String
  order : Option Int
deriving DecidableEq

/-! ### JavaScript `Map` as an association list -/

/-- `Map.prototype.get`. -/
def mapGet (m : List (Int × α)) (k : Int) : Option α :=
  (m.find? (fun p => p.1 == k)).map (fun p => p.2)

/-- `Map.prototype.has` / the boolean result of `Map.prototype.delete`. -/
def mapHas (m : List (Int × α)) (k : Int) : Bool :=
  m.any (fun p => p.1 == k)

/-- `Map.prototype.set`: update in place when the key exists, append
otherwise. -/
def mapSet (m : List (Int × α)) (k : Int) (v : α) : List (Int × α) :=
  if m.any (fun p => p.1 == k) then
    m.map (fun p => if p.1 == k then (k, v) else p)
  else m ++ [(k, v)]

/-- Removal effect of `Map.prototype.delete`. -/
def mapErase (m : List (Int × α)) (k : Int) : List (Int × α) :=
  m.filter (fun p => p.1 != k)

/-- `Array.from(map.values())`. -/
def mapValues (m : List (Int × α)) : List α := m.map (fun p => p.2)

/-! ### The store (server/storage.ts, class MemStorage) -/

structure Store where
  tabs : List (Int × Tab)
  bookmarks : List (Int × Bookmark)
  sections : List (Int × Section)
  settings : JObj
  tabIdCounter : Int
  bookmarkIdCounter : Int
  sectionIdCounter : Int
deriving DecidableEq

/-- The store built by the `MemStorage` constructor: default settings,
four default tabs, four default sections, four default bookmarks, each
id counter left at 5 after the post-increments. -/
def initialStore : Store :=
  { tabs :=
      [ (1, { id := 1, name := "Cartoons", order := 1,
              backgroundImage := none, autoSwitch := none }),
        (2, { id := 2, name := "Animation", order := 2,
              backgroundImage := none, autoSwitch := none }),
        (3, { id := 3, name := "Editing", order := 3,
              backgroundImage := none, autoSwitch := none }),
        (4, { id := 4, name := "Color Grading", order := 4,
              backgroundImage := none, autoSwitch := none }) ],
    bookmarks :=
      [ (1, { id := 1, tabId := 1, url := "https://www.google.com",
              title := "Google",
              favicon := some "https://www.google.com/favicon.ico",
              sectionName := "Featured Bookmarks", order := 1 }),
        (2, { id := 2, tabId := 1, url := "https://www.youtube.com",
              title := "YouTube",
              favicon := some "https://www.youtube.com/favicon.ico",
              sectionName := "Featured Bookmarks", order := 2 }),
        (3, { id := 3, tabId := 1, url := "https://github.com/dashboard",
              title := "GitHub",
              favicon := some "https://github.com/favicon.ico",
              sectionName := "Featured Bookmarks", order := 3 }),
        (4, { id := 4, tabId := 1, url := "https://chat.openai.com",
              title := "ChatGPT",
              favicon := some "https://chat.openai.com/favicon.ico",
              sectionName := "Featured Bookmarks", order := 4 }) ],
    sections :=
      [ (1, { id := 1, tabId := 1, name := "Featured Bookmarks",
              color := "#FF6B35", order := 1 }),
        (2, { id := 2, tabId := 2, name := "Animation Resources",
              color := "#4ECDC4", order := 1 }),
        (3, { id := 3, tabId := 3, name := "Editing Tools",
              color := "#FFD166", order := 1 }),
        (4, { id := 4, tabId := 4, name := "Color Grading Tools",
              color := "#6BBA75", order := 1 }) ],
    settings :=
      [ ("id", JVal.jnum 1),
        ("theme", JVal.jstr "system"),
        ("autoRun", JVal.jbool false) ],
    tabIdCounter := 5,
    bookmarkIdCounter := 5,
    sectionIdCounter := 5 }

/-! ### Tab operations -/

/-- `getTabs`: all tab values sorted ascending by `order`
(`Array.prototype.sort` is stable, as is `List.mergeSort`). -/
def getTabs (s : Store) : List Tab :=
  List.mergeSort (mapValues s.tabs) (fun a b => decide (a.order ≤ b.order))

/-- `getTab`. -/
def getTab (s : Store) (id : Int) : Option Tab :=
  mapGet s.tabs id

/-- `createTab`: read and post-increment the counter, spread the input
with the fresh id, store at that id. -/
def createTab (s : Store) (t : InsertTab) : Tab × Store :=
  let id := s.tabIdCounter
  let newTab : Tab :=
    { id := id, name := t.name, order := t.order,
      backgroundImage := t.backgroundImage, autoSwitch := t.autoSwitch }
  (newTab, { s with tabs := mapSet s.tabs id newTab, tabIdCounter := id + 1 })

/-- The object spread `{...existingTab, ...tab}` for a
`Partial<InsertTab>` patch (which never carries an `id` key). -/
def mergeTab (t : Tab) (p : TabPatch) : Tab :=
  { id := t.id,
    name := p.name.getD t.name,
    order := p.order.getD t.order,
    backgroundImage := p.backgroundImage.getD t.backgroundImage,
    autoSwitch := p.autoSwitch.getD t.autoSwitch }

/-- `updateTab`: `undefined` when the id is absent, otherwise merge and
store. -/
def updateTab (s : Store) (id : Int) (p : TabPatch) : Option Tab × Store :=
  match mapGet s.tabs id with
  | none => (none, s)
  | some t =>
    let u := mergeTab t p
    (some u, { s with tabs := mapSet s.tabs id u })

/-- `deleteTab`: delete all bookmarks whose `tabId` matches, then all
sections whose `tabId` matches, then the tab itself; the boolean is
`Map.delete`'s result on the tabs map. -/
def deleteTab (s : Store) (id : Int) : Bool × Store :=
  let matchingBookmarks :=
    (mapValues s.bookmarks).filter (fun b => b.tabId == id)
  let bookmarks1 :=
    matchingBookmarks.foldl (fun m b => mapErase m b.id) s.bookmarks
  let matchingSections :=
    (mapValues s.sections).filter (fun c => c.tabId == id)
  let sections1 :=
    matchingSections.foldl (fun m c => mapErase m c.id) s.sections
  (mapHas s.tabs id,
   { s with bookmarks := bookmarks1, sections := sections1,
            tabs := mapErase s.tabs id })

/-! ### Bookmark operations -/

/-- `getBookmarks`: all bookmark values, in map insertion order, with no
sorting applied. -/
def getBookmarks (s : Store) : List Bookmark :=
  mapValues s.bookmarks

/-- `getBookmarksByTab`: the bookmarks of one tab sorted ascending by
`order`. -/
def getBookmarksByTab (s : Store) (tabId : Int) : List Bookmark :=
  List.mergeSort ((mapValues s.bookmarks).filter (fun b => b.tabId == tabId))
    (fun a b => decide (a.order ≤ b.order))

/-- `getBookmark`. -/
def getBookmark (s : Store) (id : Int) : Option Bookmark :=
  mapGet s.bookmarks id

/-- `createBookmark`. -/
def createBookmark (s : Store) (b : InsertBookmark) : Bookmark × Store :=
  let id := s.bookmarkIdCounter
  let newBookmark : Bookmark :=
    { id := id, tabId := b.tabId, url := b.url, title := b.title,
      favicon := b.favicon, sectionName := b.sectionName, order := b.order }
  (newBookmark,
   { s with bookmarks := mapSet s.bookmarks id newBookmark,
            bookmarkIdCounter := id + 1 })

/-- The object spread `{...existingBookmark, ...bookmark}`. -/
def mergeBookmark (b : Bookmark) (p : BookmarkPatch) : Bookmark :=
  { id := b.id,
    tabId := p.tabId.getD b.tabId,
    url := p.url.getD b.url,
    title := p.title.getD b.title,
    favicon := p.favicon.getD b.favicon,
    sectionName := p.sectionName.getD b.sectionName,
    order := p.order.getD b.order }

/-- `updateBookmark`. -/
def updateBookmark (s : Store) (id : Int) (p : BookmarkPatch) :
    Option Bookmark × Store :=
  match mapGet s.bookmarks id with
  | none => (none, s)
  | some b =>
    let u := mergeBookmark b p
    (some u, { s with bookmarks := mapSet s.bookmarks id u })

/-- `deleteBookmark`. -/
def deleteBookmark (s : Store) (id : Int) : Bool × Store :=
  (mapHas s.bookmarks id, { s with bookmarks := mapErase s.bookmarks id })

/-! ### Section operations -/

/-- `getSections`: all section values, in map insertion order, with no
sorting applied. -/
def getSections (s : Store) : List Section :=
  mapValues s.sections

/-- `getSectionsByTab`: the sections of one tab sorted ascending by
`order`. -/
def getSectionsByTab (s : Store) (tabId : Int) : List Section :=
  List.mergeSort ((mapValues s.sections).filter (fun c => c.tabId == tabId))
    (fun a b => decide (a.order ≤ b.order))

/-- `getSection`. -/
def getSection (s : Store) (id : Int) : Option Section :=
  mapGet s.sections id

/-- `createSection`. -/
def createSection (s : Store) (c : InsertSection) : Section × Store :=
  let id := s.sectionIdCounter
  let newSection : Section :=
    { id := id, tabId := c.tabId, name := c.name, color := c.color,
      order := c.order }
  (newSection,
   { s with sections := mapSet s.sections id newSection,
            sectionIdCounter := id + 1 })

/-- The object spread `{...existingSection, ...section}`. -/
def mergeSection (c : Section) (p : SectionPatch) : Section :=
  { id := c.id,
    tabId := p.tabId.getD c.tabId,
    name := p.name.getD c.name,
    color := p.color.getD c.color,
    order := p.order.getD c.order }

/-- `updateSection`. -/
def updateSection (s : Store) (id : Int) (p : SectionPatch) :
    Option Section × Store :=
  match mapGet s.sections id with
  | none => (none, s)
  | some c =>
    let u := mergeSection c p
    (some u, { s with sections := mapSet s.sections id u })

/-- `deleteSection`. -/
def deleteSection (s : Store) (id : Int) : Bool × Store :=
  (mapHas s.sections id, { s with sections := mapErase s.sections id })

/-! ### Settings operations -/

/-- `getSettings`. -/
def getSettings (s : Store) : JObj := s.settings

/-- `updateSettings`: spread the supplied object over the current
settings (`{...this.settings, ...settingsUpdate}`) — no validation
happens here, the routes pass `req.body` through unchecked. -/
def updateSettings (s : Store) (body : JObj) : JObj × Store :=
  let ns := jsonSpread s.settings body
  (ns, { s with settings := ns })

/-! ### Zod schema validation (shared/schema.ts)

`createInsertSchema` (drizzle-zod) gives: required `z.string()` /
`z.number()` for `notNull` columns without defaults, and
`.nullable().optional()` for nullable columns / columns with defaults.
`.partial()` makes every field optional.  Unknown keys are stripped. -/

/-- A required string field (`z.string()`). -/
def parseReqString (o : JObj) (k : String) : Option String :=
  match jlookup k o with
  | some (JVal.jstr s) => some s
  | _ => none

/-- A required numeric field (`z.number()`). -/
def parseReqInt (o : JObj) (k : String) : Option Int :=
  match jlookup k o with
  | some (JVal.jnum n) => some n
  | _ => none

/-- A `z.string().nullable().optional()` field on the insert schema;
`null` and an absent key both become `none`. -/
def parseOptNullString (o : JObj) (k : String) : Option (Option String) :=
  match jlookup k o with
  | some (JVal.jstr s) => some (some s)
  | some JVal.jnull => some none
  | none => some none
  | _ => none

/-- A `z.boolean().nullable().optional()` field on the insert schema. -/
def parseOptNullBool (o : JObj) (k : String) : Option (Option Bool) :=
  match jlookup k o with
  | some (JVal.jbool b) => some (some b)
  | some JVal.jnull => some none
  | none => some none
  | _ => none

/-- A `z.string().optional()` field on a `.partial()` schema: absent is
allowed, `null` is rejected. -/
def parseOptString (o : JObj) (k : String) : Option (Option String) :=
  match jlookup k o with
  | some (JVal.jstr s) => some (some s)
  | none => some none
  | _ => none

/-- A `z.number().optional()` field on a `.partial()` schema. -/
def parseOptInt (o : JObj) (k : String) : Option (Option Int) :=
  match jlookup k o with
  | some (JVal.jnum n) => some (some n)
  | none => some none
  | _ => none

/-- A `z.boolean().optional()` field on a `.partial()` schema. -/
def parseOptBool (o : JObj) (k : String) : Option (Option Bool) :=
  match jlookup k o with
  | some (JVal.jbool b) => some (some b)
  | none => some none
  | _ => none

/-- A `z.string().nullable().optional()` field on a `.partial()`
schema: the outer `Option` is key presence, the inner nullability. -/
def parseOptNullStringKey (o : JObj) (k : String) :
    Option (Option (Option String)) :=
  match jlookup k o with
  | some (JVal.jstr s) => some (some (some s))
  | some JVal.jnull => some (some none)
  | none => some none
  | _ => none

/-- A `z.boolean().nullable().optional()` field on a `.partial()`
schema. -/
def parseOptNullBoolKey (o : JObj) (k : String) :
    Option (Option (Option Bool)) :=
  match jlookup k o with
  | some (JVal.jbool b) => some (some (some b))
  | some JVal.jnull => some (some none)
  | none => some none
  | _ => none

/-- `insertTabSchema.parse`. -/
def parseInsertTab (o : JObj) : Option InsertTab := do
  let name ← parseReqString o "name"
  let order ← parseReqInt o "order"
  let backgroundImage ← parseOptNullString o "backgroundImage"
  let autoSwitch ← parseOptNullBool o "autoSwitch"
  some { name := name, order := order, backgroundImage := backgroundImage,
         autoSwitch := autoSwitch }

/-- `insertTabSchema.partial().parse`. -/
def parseTabPatch (o : JObj) : Option TabPatch := do
  let name ← parseOptString o "name"
  let order ← parseOptInt o "order"
  let backgroundImage ← parseOptNullStringKey o "backgroundImage"
  let autoSwitch ← parseOptNullBoolKey o "autoSwitch"
  some { name := name, order := order, backgroundImage := backgroundImage,
         autoSwitch := autoSwitch }

/-- `insertBookmarkSchema.parse`. -/
def parseInsertBookmark (o : JObj) : Option InsertBookmark := do
  let tabId ← parseReqInt o "tabId"
  let url ← parseReqString o "url"
  let title ← parseReqString o "title"
  let favicon ← parseOptNullString o "favicon"
  let sectionName ← parseReqString o "sectionName"
  let order ← parseReqInt o "order"
  some { tabId := tabId, url := url, title := title, favicon := favicon,
         sectionName := sectionName, order := order }

/-- `insertBookmarkSchema.partial().parse`. -/
def parseBookmarkPatch (o : JObj) : Option BookmarkPatch := do
  let tabId ← parseOptInt o "tabId"
  let url ← parseOptString o "url"
  let title ← parseOptString o "title"
  let favicon ← parseOptNullStringKey o "favicon"
  let sectionName ← parseOptString o "sectionName"
  let order ← parseOptInt o "order"
  some { tabId := tabId, url := url, title := title, favicon := favicon,
         sectionName := sectionName, order := order }

/-- `insertSectionSchema.parse`. -/
def parseInsertSection (o : JObj) : Option InsertSection := do
  let tabId ← parseReqInt o "tabId"
  let name ← parseReqString o "name"
  let color ← parseReqString o "color"
  let order ← parseReqInt o "order"
  some { tabId := tabId, name := name, color := color, order := order }

/-- `insertSectionSchema.partial().parse`. -/
def parseSectionPatch (o : JObj) : Option SectionPatch := do
  let tabId ← parseOptInt o "tabId"
  let name ← parseOptString o "name"
  let color ← parseOptString o "color"
  let order ← parseOptInt o "order"
  some { tabId := tabId, name := name, color := color, order := order }

/-- What `insertSettingsSchema.partial().parse` would accept (both
columns have defaults, so both fields are optional): used to state that
the settings route skips this validation. -/
structure SettingsPatch where
  theme : Option String
  autoRun : Option Bool
deriving DecidableEq

/-- `insertSettingsSchema.partial().parse` — never called by the
routes, which is the point of the settings-validation claim. -/
def parseSettingsPatch (o : JObj) : Option SettingsPatch := do
  let theme ← parseOptString o "theme"
  let autoRun ← parseOptBool o "autoRun"
  some { theme := theme, autoRun := autoRun }

/-! ### Route handlers (server/routes.ts), status-code level.

The `:id` parameter is taken already parsed to a number (the handlers
400 on `NaN` before anything modelled here).  The `catch` branches map
`z.ZodError` to 400; the 500 branch is reachable only by a non-Zod
exception, which `MemStorage` never throws, so it does not appear in
the embedded semantics. -/

/-- `POST /api/tabs`. -/
def postTabsHandler (s : Store) (body : JObj) : Nat × Store :=
  match parseInsertTab body with
  | none => (400, s)
  | some d =>
    let r := createTab s d
    (201, r.2)

/-- `PATCH /api/tabs/:id`. -/
def patchTabHandler (s : Store) (id : Int) (body : JObj) : Nat × Store :=
  match parseTabPatch body with
  | none => (400, s)
  | some p =>
    match updateTab s id p with
    | (none, s1) => (404, s1)
    | (some _, s1) => (200, s1)

/-- `DELETE /api/tabs/:id`. -/
def deleteTabHandler (s : Store) (id : Int) : Nat × Store :=
  let r := deleteTab s id
  (if r.1 then 204 else 404, r.2)

/-- `GET /api/bookmarks` with optional `tabId` query: `if (tabId)` is a
JavaScript truthiness test, so a supplied `tabId` of `0` falls through
to the unfiltered list. -/
def getBookmarksHandler (s : Store) (tabId : Option Int) : List Bookmark :=
  match tabId with
  | some t => if t != 0 then getBookmarksByTab s t else getBookmarks s
  | none => getBookmarks s

/-- `POST /api/bookmarks`. -/
def postBookmarksHandler (s : Store) (body : JObj) : Nat × Store :=
  match parseInsertBookmark body with
  | none => (400, s)
  | some d =>
    let r := createBookmark s d
    (201, r.2)

/-- `PATCH /api/bookmarks/:id`. -/
def patchBookmarkHandler (s : Store) (id : Int) (body : JObj) : Nat × Store :=
  match parseBookmarkPatch body with
  | none => (400, s)
  | some p =>
    match updateBookmark s id p with
    | (none, s1) => (404, s1)
    | (some _, s1) => (200, s1)

/-- `DELETE /api/bookmarks/:id`. -/
def deleteBookmarkHandler (s : Store) (id : Int) : Nat × Store :=
  let r := deleteBookmark s id
  (if r.1 then 204 else 404, r.2)

/-- `GET /api/sections` with optional `tabId` query (same truthiness
test as for bookmarks). -/
def getSectionsHandler (s : Store) (tabId : Option Int) : List Section :=
  match tabId with
  | some t => if t != 0 then getSectionsByTab s t else getSections s
  | none => getSections s

/-- `POST /api/sections`. -/
def postSectionsHandler (s : Store) (body : JObj) : Nat × Store :=
  match parseInsertSection body with
  | none => (400, s)
  | some d =>
    let r := createSection s d
    (201, r.2)

/-- `PATCH /api/sections/:id`. -/
def patchSectionHandler (s : Store) (id : Int) (body : JObj) : Nat × Store :=
  match parseSectionPatch body with
  | none => (400, s)
  | some p =>
    match updateSection s id p with
    | (none, s1) => (404, s1)
    | (some _, s1) => (200, s1)

/-- `DELETE /api/sections/:id`. -/
def deleteSectionHandler (s : Store) (id : Int) : Nat × Store :=
  let r := deleteSection s id
  (if r.1 then 204 else 404, r.2)

/-- `PATCH /api/settings`: `storage.updateSettings(req.body)` with no
schema validation; `MemStorage.updateSettings` cannot throw, so the
response is always 200 with the merged record. -/
def patchSettingsHandler (s : Store) (body : JObj) : Nat × Store :=
  let r := updateSettings s body
  (200, r.2)

/-! ### Sequences of storage operations, for the invariant claims -/

/-- One mutating storage call. -/
inductive Op where
  | createTabOp (t : InsertTab)
  | updateTabOp (id : Int) (p : TabPatch)
  | deleteTabOp (id : Int)
  | createBookmarkOp (b : InsertBookmark)
  | updateBookmarkOp (id : Int) (p : BookmarkPatch)
  | deleteBookmarkOp (id : Int)
  | createSectionOp (c : InsertSection)
  | updateSectionOp (id : Int) (p : SectionPatch)
  | deleteSectionOp (id : Int)
  | updateSettingsOp (body : JObj)
deriving DecidableEq

/-- The store after one mutating call. -/
def applyOp (s : Store) : Op → Store
  | .createTabOp t => (createTab s t).2
  | .updateTabOp id p => (updateTab s id p).2
  | .deleteTabOp id => (deleteTab s id).2
  | .createBookmarkOp b => (createBookmark s b).2
  | .updateBookmarkOp id p => (updateBookmark s id p).2
  | .deleteBookmarkOp id => (deleteBookmark s id).2
  | .createSectionOp c => (createSection s c).2
  | .updateSectionOp id p => (updateSection s id p).2
  | .deleteSectionOp id => (deleteSection s id).2
  | .updateSettingsOp body => (updateSettings s body).2

/-- The store after a sequence of mutating calls. -/
def runOps (s : Store) (ops : List Op) : Store := ops.foldl applyOp s

/-- Well-formedness of one map of the store: every stored record's id
is its key, keys are pairwise distinct, and every key is below the id
counter. -/
abbrev MapWF (getId : α → Int) (m : List (Int × α)) (counter : Int) : Prop :=
  (∀ p ∈ m, getId p.2 = p.1) ∧ (m.map Prod.fst).Nodup ∧
    (∀ p ∈ m, p.1 < counter)

/-- Well-formedness of the whole store. -/
abbrev Inv (s : Store) : Prop :=
  MapWF Tab.id s.tabs s.tabIdCounter ∧
  MapWF Bookmark.id s.bookmarks s.bookmarkIdCounter ∧
  MapWF Section.id s.sections s.sectionIdCounter

/-! ### Spec-side merge predicates

These state, in the spec's words, what a partial update must do: every
field named in the patch takes its new value, every field not named is
unchanged, and the id is untouched.  They are compared against the
source-derived `merge…` functions in the update claims. -/

/-- `r` is `old` updated by patch `p` as the spec describes it. -/
def MergesTab (old : Tab) (p : TabPatch) (r : Tab) : Prop :=
  r.id = old.id ∧
  (∀ v, p.name = some v → r.name = v) ∧
  (p.name = none → r.name = old.name) ∧
  (∀ v, p.order = some v → r.order = v) ∧
  (p.order = none → r.order = old.order) ∧
  (∀ v, p.backgroundImage = some v → r.backgroundImage = v) ∧
  (p.backgroundImage = none → r.backgroundImage = old.backgroundImage) ∧
  (∀ v, p.autoSwitch = some v → r.autoSwitch = v) ∧
  (p.autoSwitch = none → r.autoSwitch = old.autoSwitch)

/-- `r` is `old` updated by patch `p` as the spec describes it. -/
def MergesBookmark (old : Bookmark) (p : BookmarkPatch) (r : Bookmark) : Prop :=
  r.id = old.id ∧
  (∀ v, p.tabId = some v → r.tabId = v) ∧
  (p.tabId = none → r.tabId = old.tabId) ∧
  (∀ v, p.url = some v → r.url = v) ∧
  (p.url = none → r.url = old.url) ∧
  (∀ v, p.title = some v → r.title = v) ∧
  (p.title = none → r.title = old.title) ∧
  (∀ v, p.favicon = some v → r.favicon = v) ∧
  (p.favicon = none → r.favicon = old.favicon) ∧
  (∀ v, p.sectionName = some v → r.sectionName = v) ∧
  (p.sectionName = none → r.sectionName = old.sectionName) ∧
  (∀ v, p.order = some v → r.order = v) ∧
  (p.order = none → r.order = old.order)

/-- `r` is `old` updated by patch `p` as the spec describes it. -/
def MergesSection (old : Section) (p : SectionPatch) (r : Section) : Prop :=
  r.id = old.id ∧
  (∀ v, p.tabId = some v → r.tabId = v) ∧
  (p.tabId = none → r.tabId = old.tabId) ∧
  (∀ v, p.name = some v → r.name = v) ∧
  (p.name = none → r.name = old.name) ∧
  (∀ v, p.color = some v → r.color = v) ∧
  (p.color = none → r.color = old.color) ∧
  (∀ v, p.order = some v → r.order = v) ∧
  (p.order = none → r.order = old.order)

/-! ### Concrete sample data used to instantiate the theorems -/

/-- The first default tab of the constructor. -/
def cartoonsTab : Tab :=
  { id := 1, name := "Cartoons", order := 1, backgroundImage := none,
    autoSwitch := none }

/-- The first default bookmark of the constructor. -/
def googleBookmark : Bookmark :=
  { id := 1, tabId := 1, url := "https://www.google.com", title := "Google",
    favicon := some "https://www.google.com/favicon.ico",
    sectionName := "Featured Bookmarks", order := 1 }

/-- A generic valid tab input. -/
def sampleInsertTab : InsertTab :=
  { name := "New Tab", order := 9, backgroundImage := none,
    autoSwitch := none }

/-- A generic valid bookmark input. -/
def sampleInsertBookmark : InsertBookmark :=
  { tabId := 1, url := "https://example.com", title := "Example",
    favicon := none, sectionName := "Featured Bookmarks", order := 9 }

/-- A generic valid section input. -/
def sampleInsertSection : InsertSection :=
  { tabId := 1, name := "Extras", color := "#123456", order := 9 }

/-- A bookmark input whose `sectionName` matches no stored section. -/
def ghostBookmark : InsertBookmark :=
  { tabId := 1, url := "https://example.com", title := "Orphan",
    favicon := none, sectionName := "Ghost Section", order := 9 }

/-- A bookmark input referencing tab 5, which does not exist in
`initialStore`. -/
def orphanBookmark : InsertBookmark :=
  { tabId := 5, url := "https://example.com", title := "Orphan",
    favicon := none, sectionName := "Featured Bookmarks", order := 9 }

/-- `initialStore` after storing `orphanBookmark` (reachable through
`POST /api/bookmarks`, since referential integrity is never checked). -/
def orphanStore : Store := (createBookmark initialStore orphanBookmark).2

/-- A bookmark input whose `order` is below all existing orders, making
the unsorted `getBookmarks` listing visible. -/
def lateBookmark : InsertBookmark :=
  { tabId := 1, url := "https://example.com", title := "Late",
    favicon := none, sectionName := "Featured Bookmarks", order := 0 }

/-- A tab patch that renames tab 1 and touches nothing else. -/
def renamePatch : TabPatch :=
  { name := some "Toons", order := none, backgroundImage := none,
    autoSwitch := none }

/-- A bookmark patch that only changes `sectionName`, to a name that
matches no stored section. -/
def phantomPatch : BookmarkPatch :=
  { tabId := none, url := none, title := none, favicon := none,
    sectionName := some "Phantom Section", order := none }

/-- An empty bookmark patch. -/
def emptyBookmarkPatch : BookmarkPatch :=
  { tabId := none, url := none, title := none, favicon := none,
    sectionName := none, order := none }

/-- An empty section patch. -/
def emptySectionPatch : SectionPatch :=
  { tabId := none, name := none, color := none, order := none }

/-! ## Lemmas about the map model -/

theorem mapGet_cons (p : Int × α) (m : List (Int × α)) (k : Int) :
    mapGet (p :: m) k = if p.1 == k then some p.2 else mapGet m k := by
  by_cases h : p.1 = k
  · simp [mapGet, h]
  · have hb : (p.1 == k) = false := by simpa using h
    simp [mapGet, hb]

theorem mapHas_eq_isSome (m : List (Int × α)) (k : Int) :
    mapHas m k = (mapGet m k).isSome := by
  induction m with
  | nil => rfl
  | cons p rest ih =>
    rw [mapGet_cons]
    by_cases h : p.1 = k
    · have hb : (p.1 == k) = true := by simpa using h
      simp [mapHas, List.any_cons, hb]
    · have hb : (p.1 == k) = false := by simpa using h
      have hnb : ¬((p.1 == k) = true) := by simp [hb]
      rw [if_neg hnb]
      simp only [mapHas, List.any_cons, hb, Bool.false_or]
      exact ih

theorem mapGet_some_mem {m : List (Int × α)} {k : Int} {v : α}
    (h : mapGet m k = some v) : (k, v) ∈ m := by
  unfold mapGet at h
  cases hf : m.find? (fun p => p.1 == k) with
  | none => rw [hf] at h; simp at h
  | some q =>
    rw [hf] at h
    have h2 : q.2 = v := by simpa using h
    have hq := List.find?_some hf
    have hq1 : q.1 = k := by simpa using hq
    have hm : q ∈ m := List.mem_of_find?_eq_some hf
    have : q = (k, v) := by
      cases q with
      | mk a b => simp_all
    rwa [this] at hm

theorem mapGet_none_iff (m : List (Int × α)) (k : Int) :
    mapGet m k = none ↔ ∀ p ∈ m, p.1 ≠ k := by
  unfold mapGet
  constructor
  · intro h p hp hpk
    cases hf : m.find? (fun p => p.1 == k) with
    | none =>
      rw [List.find?_eq_none] at hf
      exact hf p hp (by simpa using hpk)
    | some q => rw [hf] at h; simp at h
  · intro h
    have hf : m.find? (fun p => p.1 == k) = none := by
      rw [List.find?_eq_none]
      intro p hp
      simpa using h p hp
    rw [hf]
    rfl

theorem mapGet_mapSet_self (m : List (Int × α)) (k : Int) (v : α) :
    mapGet (mapSet m k v) k = some v := by
  unfold mapSet
  split
  case isTrue h =>
    induction m with
    | nil => simp at h
    | cons p rest ih =>
      rw [List.map_cons, mapGet_cons]
      by_cases hp : p.1 = k
      · have hb : (p.1 == k) = true := by simpa using hp
        rw [if_pos hb]
        simp
      · have hb : (p.1 == k) = false := by simpa using hp
        have hnb : ¬((p.1 == k) = true) := by simp [hb]
        simp only [List.any_cons, hb, Bool.false_or] at h
        rw [if_neg hnb, if_neg hnb]
        exact ih h
  case isFalse h =>
    have hnone : m.find? (fun p => p.1 == k) = none := by
      rw [List.find?_eq_none]
      intro p hp hpk
      exact h (List.any_eq_true.mpr ⟨p, hp, hpk⟩)
    unfold mapGet
    rw [List.find?_append, hnone]
    simp

theorem mapErase_of_get_none {m : List (Int × α)} {k : Int}
    (h : mapGet m k = none) : mapErase m k = m := by
  unfold mapErase
  rw [List.filter_eq_self]
  intro p hp
  rw [mapGet_none_iff] at h
  simpa [bne] using h p hp

theorem mapGet_mapErase_self (m : List (Int × α)) (k : Int) :
    mapGet (mapErase m k) k = none := by
  rw [mapGet_none_iff]
  intro p hp
  unfold mapErase at hp
  rw [List.mem_filter] at hp
  simpa [bne] using hp.2

theorem mapHas_mapErase_self (m : List (Int × α)) (k : Int) :
    mapHas (mapErase m k) k = false := by
  rw [mapHas_eq_isSome, mapGet_mapErase_self]
  rfl

theorem mapErase_mapErase_self (m : List (Int × α)) (k : Int) :
    mapErase (mapErase m k) k = mapErase m k :=
  mapErase_of_get_none (mapGet_mapErase_self m k)

theorem foldl_mapErase_eq_filter : ∀ (ids : List Int) (m : List (Int × α)),
    ids.foldl (fun acc i => mapErase acc i) m
      = m.filter (fun p => !(ids.any (fun i => p.1 == i))) := by
  intro ids
  induction ids with
  | nil =>
    intro m
    simp [List.filter_eq_self]
  | cons i rest ih =>
    intro m
    rw [List.foldl_cons, ih, mapErase, List.filter_filter]
    apply List.filter_congr
    intro p _
    simp only [List.any_cons, Bool.not_or]
    cases h1 : p.1 == i <;> cases h2 : rest.any (fun j => p.1 == j) <;>
      simp [bne, h1, h2]

theorem cascade_eq_filter (getId getTid : α → Int) (m : List (Int × α))
    (tid : Int) (hid : ∀ p ∈ m, getId p.2 = p.1)
    (hnd : (m.map Prod.fst).Nodup) :
    ((mapValues m).filter (fun v => getTid v == tid)).foldl
        (fun acc v => mapErase acc (getId v)) m
      = m.filter (fun p => getTid p.2 != tid) := by
  have h1 : ((mapValues m).filter (fun v => getTid v == tid)).foldl
      (fun acc v => mapErase acc (getId v)) m
      = (((mapValues m).filter (fun v => getTid v == tid)).map getId).foldl
          (fun acc i => mapErase acc i) m := by
    rw [List.foldl_map]
  rw [h1, foldl_mapErase_eq_filter]
  apply List.filter_congr
  intro p hp
  have key : ((((mapValues m).filter (fun v => getTid v == tid)).map getId).any
      (fun i => p.1 == i)) = (getTid p.2 == tid) := by
    by_cases hc : getTid p.2 = tid
    · have hmem : p.2 ∈ (mapValues m).filter (fun v => getTid v == tid) := by
        rw [List.mem_filter]
        exact ⟨List.mem_map.mpr ⟨p, hp, rfl⟩, by simpa using hc⟩
      have hmem2 : getId p.2 ∈ ((mapValues m).filter
          (fun v => getTid v == tid)).map getId :=
        List.mem_map.mpr ⟨p.2, hmem, rfl⟩
      have hcb : (getTid p.2 == tid) = true := by simpa using hc
      rw [hcb, List.any_eq_true]
      exact ⟨getId p.2, hmem2, by simp [hid p hp]⟩
    · have hcb : (getTid p.2 == tid) = false := by simpa using hc
      rw [hcb]
      rw [List.any_eq_false]
      intro i hi
      rw [List.mem_map] at hi
      obtain ⟨v, hv, rfl⟩ := hi
      rw [List.mem_filter] at hv
      obtain ⟨hvval, hvtid⟩ := hv
      rw [mapValues, List.mem_map] at hvval
      obtain ⟨q, hq, rfl⟩ := hvval
      intro hpq
      have hpq1 : p.1 = getId q.2 := by simpa using hpq
      have : p = q := List.inj_on_of_nodup_map hnd hp hq
        (hpq1.trans (hid q hq))
      apply hc
      rw [this]
      simpa using hvtid
  rw [key]
  cases h : getTid p.2 == tid <;> simp [bne, h]

/-- Under the store invariant, `deleteTab` is: filter out the bookmarks
and sections whose `tabId` matches, erase the tab, and report whether
the tab existed. -/
theorem deleteTab_eq (s : Store) (id : Int) (h : Inv s) :
    deleteTab s id =
      (mapHas s.tabs id,
       { s with bookmarks := s.bookmarks.filter (fun p => p.2.tabId != id),
                sections := s.sections.filter (fun p => p.2.tabId != id),
                tabs := mapErase s.tabs id }) := by
  obtain ⟨ht, hb, hc⟩ := h
  simp only [deleteTab]
  rw [cascade_eq_filter Bookmark.id Bookmark.tabId s.bookmarks id hb.1 hb.2.1,
      cascade_eq_filter Section.id Section.tabId s.sections id hc.1 hc.2.1]

/-! ## Preservation of the store invariant -/

theorem mapWF_filter (getId : α → Int) {m : List (Int × α)} {c : Int}
    (h : MapWF getId m c) (pred : Int × α → Bool) :
    MapWF getId (m.filter pred) c := by
  obtain ⟨h1, h2, h3⟩ := h
  refine ⟨?_, ?_, ?_⟩
  · intro p hp
    exact h1 p (List.mem_of_mem_filter hp)
  · exact ((List.filter_sublist m).map Prod.fst).nodup h2
  · intro p hp
    exact h3 p (List.mem_of_mem_filter hp)

theorem mapWF_not_has (getId : α → Int) {m : List (Int × α)} {c : Int}
    (h : MapWF getId m c) : mapHas m c = false := by
  rw [mapHas_eq_isSome]
  have : mapGet m c = none := by
    rw [mapGet_none_iff]
    intro p hp hpk
    have := h.2.2 p hp
    omega
  rw [this]
  rfl

theorem mapWF_create (getId : α → Int) {m : List (Int × α)} {c : Int}
    (h : MapWF getId m c) (v : α) (hv : getId v = c) :
    MapWF getId (mapSet m c v) (c + 1) := by
  have hno : (m.any fun p => p.1 == c) = false := mapWF_not_has getId h
  obtain ⟨h1, h2, h3⟩ := h
  unfold mapSet
  rw [hno]
  simp only [Bool.false_eq_true, if_false]
  refine ⟨?_, ?_, ?_⟩
  · intro p hp
    rcases List.mem_append.mp hp with hm | hs
    · exact h1 p hm
    · rw [List.mem_singleton] at hs
      rw [hs]
      exact hv
  · rw [List.map_append, List.nodup_append]
    refine ⟨h2, List.nodup_singleton c, ?_⟩
    intro a ha hb
    rw [List.map_singleton, List.mem_singleton] at hb
    rw [List.mem_map] at ha
    obtain ⟨p, hp, rfl⟩ := ha
    have := h3 p hp
    omega
  · intro p hp
    rcases List.mem_append.mp hp with hm | hs
    · have := h3 p hm
      omega
    · rw [List.mem_singleton] at hs
      rw [hs]
      omega

theorem mapWF_set_existing (getId : α → Int) {m : List (Int × α)} {c k : Int}
    (h : MapWF getId m c) (hk : mapHas m k = true) (v : α) (hv : getId v = k) :
    MapWF getId (mapSet m k v) c := by
  obtain ⟨h1, h2, h3⟩ := h
  unfold mapSet
  split
  case isFalse hno =>
    exact absurd hk (by simpa [mapHas] using hno)
  case isTrue hyes =>
    have hkeys : (m.map (fun p => if p.1 == k then (k, v) else p)).map Prod.fst
        = m.map Prod.fst := by
      rw [List.map_map]
      apply List.map_congr_left
      intro p _
      by_cases hc : p.1 = k
      · have hb : (p.1 == k) = true := by simpa using hc
        simp [hb, hc]
      · have hb : (p.1 == k) = false := by simpa using hc
        simp [hb, hc]
    refine ⟨?_, ?_, ?_⟩
    · intro p hp
      rw [List.mem_map] at hp
      obtain ⟨q, hq, rfl⟩ := hp
      by_cases hc : q.1 = k
      · have hb : (q.1 == k) = true := by simpa using hc
        simp only [hb, if_pos]
        exact hv
      · have hb : (q.1 == k) = false := by simpa using hc
        have hnb : ¬((q.1 == k) = true) := by simp [hb]
        rw [if_neg hnb]
        exact h1 q hq
    · rw [hkeys]
      exact h2
    · intro p hp
      rw [List.mem_map] at hp
      obtain ⟨q, hq, rfl⟩ := hp
      by_cases hc : q.1 = k
      · have hb : (q.1 == k) = true := by simpa using hc
        simp only [hb, if_pos]
        rw [← hc]
        exact h3 q hq
      · have hb : (q.1 == k) = false := by simpa using hc
        have hnb : ¬((q.1 == k) = true) := by simp [hb]
        rw [if_neg hnb]
        exact h3 q hq

theorem mapHas_of_get_some {m : List (Int × α)} {k : Int} {v : α}
    (h : mapGet m k = some v) : mapHas m k = true := by
  rw [mapHas_eq_isSome, h]
  rfl

theorem inv_createTab (s : Store) (t : InsertTab) (h : Inv s) :
    Inv (createTab s t).2 :=
  ⟨mapWF_create Tab.id h.1 _ rfl, h.2.1, h.2.2⟩

theorem inv_updateTab (s : Store) (id : Int) (p : TabPatch) (h : Inv s) :
    Inv (updateTab s id p).2 := by
  cases hg : mapGet s.tabs id with
  | none => simp only [updateTab, hg]; exact h
  | some t =>
    simp only [updateTab, hg]
    have htid : t.id = id := h.1.1 (id, t) (mapGet_some_mem hg)
    exact ⟨mapWF_set_existing Tab.id h.1 (mapHas_of_get_some hg) _ htid,
           h.2.1, h.2.2⟩

theorem inv_deleteTab (s : Store) (id : Int) (h : Inv s) :
    Inv (deleteTab s id).2 := by
  rw [deleteTab_eq s id h]
  exact ⟨mapWF_filter Tab.id h.1 _, mapWF_filter Bookmark.id h.2.1 _,
         mapWF_filter Section.id h.2.2 _⟩

theorem inv_createBookmark (s : Store) (b : InsertBookmark) (h : Inv s) :
    Inv (createBookmark s b).2 :=
  ⟨h.1, mapWF_create Bookmark.id h.2.1 _ rfl, h.2.2⟩

theorem inv_updateBookmark (s : Store) (id : Int) (p : BookmarkPatch)
    (h : Inv s) : Inv (updateBookmark s id p).2 := by
  cases hg : mapGet s.bookmarks id with
  | none => simp only [updateBookmark, hg]; exact h
  | some b =>
    simp only [updateBookmark, hg]
    have hbid : b.id = id := h.2.1.1 (id, b) (mapGet_some_mem hg)
    exact ⟨h.1, mapWF_set_existing Bookmark.id h.2.1
      (mapHas_of_get_some hg) _ hbid, h.2.2⟩

theorem inv_deleteBookmark (s : Store) (id : Int) (h : Inv s) :
    Inv (deleteBookmark s id).2 :=
  ⟨h.1, mapWF_filter Bookmark.id h.2.1 _, h.2.2⟩

theorem inv_createSection (s : Store) (c : InsertSection) (h : Inv s) :
    Inv (createSection s c).2 :=
  ⟨h.1, h.2.1, mapWF_create Section.id h.2.2 _ rfl⟩

theorem inv_updateSection (s : Store) (id : Int) (p : SectionPatch)
    (h : Inv s) : Inv (updateSection s id p).2 := by
  cases hg : mapGet s.sections id with
  | none => simp only [updateSection, hg]; exact h
  | some c =>
    simp only [updateSection, hg]
    have hcid : c.id = id := h.2.2.1 (id, c) (mapGet_some_mem hg)
    exact ⟨h.1, h.2.1, mapWF_set_existing Section.id h.2.2
      (mapHas_of_get_some hg) _ hcid⟩

theorem inv_deleteSection (s : Store) (id : Int) (h : Inv s) :
    Inv (deleteSection s id).2 :=
  ⟨h.1, h.2.1, mapWF_filter Section.id h.2.2 _⟩

theorem inv_updateSettings (s : Store) (body : JObj) (h : Inv s) :
    Inv (updateSettings s body).2 :=
  h

theorem inv_applyOp (s : Store) (op : Op) (h : Inv s) : Inv (applyOp s op) := by
  cases op with
  | createTabOp t => exact inv_createTab s t h
  | updateTabOp id p => exact inv_updateTab s id p h
  | deleteTabOp id => exact inv_deleteTab s id h
  | createBookmarkOp b => exact inv_createBookmark s b h
  | updateBookmarkOp id p => exact inv_updateBookmark s id p h
  | deleteBookmarkOp id => exact inv_deleteBookmark s id h
  | createSectionOp c => exact inv_createSection s c h
  | updateSectionOp id p => exact inv_updateSection s id p h
  | deleteSectionOp id => exact inv_deleteSection s id h
  | updateSettingsOp body => exact inv_updateSettings s body h

theorem inv_initialStore : Inv initialStore := by decide

theorem inv_runOps_of (s : Store) (ops : List Op) (h : Inv s) :
    Inv (runOps s ops) := by
  induction ops generalizing s with
  | nil => exact h
  | cons op rest ih => exact ih (applyOp s op) (inv_applyOp s op h)

theorem inv_runOps (ops : List Op) : Inv (runOps initialStore ops) :=
  inv_runOps_of initialStore ops inv_initialStore

theorem counters_le_applyOp (s : Store) (op : Op) :
    s.tabIdCounter ≤ (applyOp s op).tabIdCounter ∧
    s.bookmarkIdCounter ≤ (applyOp s op).bookmarkIdCounter ∧
    s.sectionIdCounter ≤ (applyOp s op).sectionIdCounter := by
  cases op with
  | createTabOp t => simp [applyOp, createTab]
  | updateTabOp id p =>
    cases hg : mapGet s.tabs id with
    | none => simp [applyOp, updateTab, hg]
    | some t => simp [applyOp, updateTab, hg]
  | deleteTabOp id => simp [applyOp, deleteTab]
  | createBookmarkOp b => simp [applyOp, createBookmark]
  | updateBookmarkOp id p =>
    cases hg : mapGet s.bookmarks id with
    | none => simp [applyOp, updateBookmark, hg]
    | some b => simp [applyOp, updateBookmark, hg]
  | deleteBookmarkOp id => simp [applyOp, deleteBookmark]
  | createSectionOp c => simp [applyOp, createSection]
  | updateSectionOp id p =>
    cases hg : mapGet s.sections id with
    | none => simp [applyOp, updateSection, hg]
    | some c => simp [applyOp, updateSection, hg]
  | deleteSectionOp id => simp [applyOp, deleteSection]
  | updateSettingsOp body => simp [applyOp, updateSettings]

theorem counters_le_runOps (s : Store) (ops : List Op) :
    s.tabIdCounter ≤ (runOps s ops).tabIdCounter ∧
    s.bookmarkIdCounter ≤ (runOps s ops).bookmarkIdCounter ∧
    s.sectionIdCounter ≤ (runOps s ops).sectionIdCounter := by
  induction ops generalizing s with
  | nil => exact ⟨le_refl _, le_refl _, le_refl _⟩
  | cons op rest ih =>
    have h1 := counters_le_applyOp s op
    have h2 := ih (applyOp s op)
    exact ⟨le_trans h1.1 h2.1, le_trans h1.2.1 h2.2.1,
           le_trans h1.2.2 h2.2.2⟩

theorem runOps_append (s : Store) (l1 l2 : List Op) :
    runOps s (l1 ++ l2) = runOps (runOps s l1) l2 := by
  unfold runOps
  rw [List.foldl_append]

theorem values_ids_nodup (getId : α → Int) {m : List (Int × α)} {c : Int}
    (h : MapWF getId m c) : ((mapValues m).map getId).Nodup := by
  have heq : (mapValues m).map getId = m.map Prod.fst := by
    rw [mapValues, List.map_map]
    exact List.map_congr_left (fun p hp => h.1 p hp)
  rw [heq]
  exact h.2.1

/-! ## Lemmas about the JSON spread -/

theorem find_key_map_preserve (g : String × JVal → String × JVal)
    (hg : ∀ p, (g p).1 = p.1) (k : String) :
    ∀ l : List (String × JVal),
      (l.map g).find? (fun q => q.1 == k)
        = (l.find? (fun q => q.1 == k)).map g := by
  intro l
  induction l with
  | nil => rfl
  | cons a l ih =>
    by_cases ha : a.1 = k
    · have h1 : ((g a).1 == k) = true := by simp [hg a, ha]
      have h2 : (a.1 == k) = true := by simpa using ha
      simp only [List.map_cons, List.find?_cons, h1, h2]
      rfl
    · have h1 : ((g a).1 == k) = false := by simp [hg a, ha]
      have h2 : (a.1 == k) = false := by simpa using ha
      simp only [List.map_cons, List.find?_cons, h1, h2]
      exact ih

theorem find_key_filter (pred : String × JVal → Bool) (k : String) :
    ∀ l : List (String × JVal), (∀ q ∈ l, q.1 = k → pred q = true) →
      (l.filter pred).find? (fun q => q.1 == k)
        = l.find? (fun q => q.1 == k) := by
  intro l
  induction l with
  | nil => intro _; rfl
  | cons a l ih =>
    intro h
    have ih2 := ih (fun q hq hqk => h q (List.mem_cons_of_mem a hq) hqk)
    by_cases ha : a.1 = k
    · have hpa : pred a = true := h a (List.mem_cons_self a l) ha
      have hab : (a.1 == k) = true := by simpa using ha
      simp [List.filter_cons, hpa, List.find?_cons, hab]
    · have hab : (a.1 == k) = false := by simpa using ha
      cases hpa : pred a
      · simp [List.filter_cons, hpa, List.find?_cons, hab, ih2]
      · simp [List.filter_cons, hpa, List.find?_cons, hab, ih2]

theorem jlookup_jsonSpread_of_some {patch : JObj} {k : String} {v : JVal}
    (h : jlookup k patch = some v) (base : JObj) :
    jlookup k (jsonSpread base patch) = some v := by
  obtain ⟨q1, hq1f, hq1v⟩ : ∃ q1, patch.find? (fun q => q.1 == k) = some q1
      ∧ q1.2 = v := by
    unfold jlookup at h
    cases hf : patch.find? (fun q => q.1 == k) with
    | none => rw [hf] at h; simp at h
    | some q1 =>
      rw [hf] at h
      exact ⟨q1, rfl, by simpa using h⟩
  have hq1k : q1.1 = k := by simpa using List.find?_some hq1f
  unfold jlookup jsonSpread
  rw [List.find?_append]
  rw [find_key_map_preserve _ ?hpres k base]
  case hpres =>
    intro p
    cases hfp : patch.find? (fun q => q.1 == p.1) <;> simp [hfp]
  cases hbf : base.find? (fun q => q.1 == k) with
  | some q0 =>
    have hq0k : q0.1 = k := by simpa using List.find?_some hbf
    simp only [Option.map_some', Option.or_some]
    have hm : (match patch.find? (fun q => q.1 == q0.1) with
        | some q => (q0.1, q.2)
        | none => q0) = (q0.1, q1.2) := by
      rw [hq0k, hq1f]
    rw [hm]
    simp [hq1v]
  | none =>
    simp only [Option.map_none', Option.none_or]
    have hall : ∀ p ∈ base, ¬((p.1 == k) = true) := List.find?_eq_none.mp hbf
    rw [find_key_filter _ k patch ?hkeep]
    case hkeep =>
      intro q hq hqk
      simp only [Bool.not_eq_true']
      rw [List.any_eq_false]
      intro p hp
      rw [hqk]
      simpa using hall p hp
    rw [hq1f]
    simp [hq1v]

theorem jlookup_jsonSpread_of_none {patch : JObj} {k : String}
    (h : jlookup k patch = none) (base : JObj) :
    jlookup k (jsonSpread base patch) = jlookup k base := by
  have hpf : patch.find? (fun q => q.1 == k) = none := by
    unfold jlookup at h
    cases hf : patch.find? (fun q => q.1 == k) with
    | none => rfl
    | some q1 => rw [hf] at h; simp at h
  unfold jlookup jsonSpread
  rw [List.find?_append]
  rw [find_key_map_preserve _ ?hpres k base]
  case hpres =>
    intro p
    cases hfp : patch.find? (fun q => q.1 == p.1) <;> simp [hfp]
  cases hbf : base.find? (fun q => q.1 == k) with
  | some q0 =>
    have hq0k : q0.1 = k := by simpa using List.find?_some hbf
    simp only [Option.map_some', Option.or_some]
    have hm : (match patch.find? (fun q => q.1 == q0.1) with
        | some q => (q0.1, q.2)
        | none => q0) = q0 := by
      rw [hq0k, hpf]
    rw [hm]
  | none =>
    simp only [Option.map_none', Option.none_or]
    have hall : ∀ p ∈ base, ¬((p.1 == k) = true) := List.find?_eq_none.mp hbf
    rw [find_key_filter _ k patch ?hkeep]
    case hkeep =>
      intro q hq hqk
      simp only [Bool.not_eq_true']
      rw [List.any_eq_false]
      intro p hp
      rw [hqk]
      simpa using hall p hp
    rw [hpf]
    rfl

/-! ## Remaining helper lemmas -/

theorem Store.ext' {a b : Store} (ht : a.tabs = b.tabs)
    (hb : a.bookmarks = b.bookmarks) (hs : a.sections = b.sections)
    (hset : a.settings = b.settings) (h1 : a.tabIdCounter = b.tabIdCounter)
    (h2 : a.bookmarkIdCounter = b.bookmarkIdCounter)
    (h3 : a.sectionIdCounter = b.sectionIdCounter) : a = b := by
  cases a
  cases b
  simp_all

theorem deleteTab_fst (s : Store) (id : Int) :
    (deleteTab s id).1 = mapHas s.tabs id := rfl

theorem deleteTab_tabs (s : Store) (id : Int) :
    (deleteTab s id).2.tabs = mapErase s.tabs id := rfl

theorem filter_idem (p : α → Bool) (l : List α) :
    (l.filter p).filter p = l.filter p := by
  rw [List.filter_filter]
  apply List.filter_congr
  intro a _
  simp

theorem mergesTab_mergeTab (t0 : Tab) (p : TabPatch) :
    MergesTab t0 p (mergeTab t0 p) := by
  refine ⟨rfl, ?_, ?_, ?_, ?_, ?_, ?_, ?_, ?_⟩ <;>
    first
      | (intro v hv; simp [mergeTab, hv])
      | (intro hv; simp [mergeTab, hv])

theorem mergesBookmark_mergeBookmark (b0 : Bookmark) (p : BookmarkPatch) :
    MergesBookmark b0 p (mergeBookmark b0 p) := by
  refine ⟨rfl, ?_, ?_, ?_, ?_, ?_, ?_, ?_, ?_, ?_, ?_, ?_, ?_⟩ <;>
    first
      | (intro v hv; simp [mergeBookmark, hv])
      | (intro hv; simp [mergeBookmark, hv])

theorem mergesSection_mergeSection (c0 : Section) (p : SectionPatch) :
    MergesSection c0 p (mergeSection c0 p) := by
  refine ⟨rfl, ?_, ?_, ?_, ?_, ?_, ?_, ?_, ?_⟩ <;>
    first
      | (intro v hv; simp [mergeSection, hv])
      | (intro hv; simp [mergeSection, hv])

theorem pairwise_mergeSort_order (ord : α → Int) (l : List α) :
    List.Pairwise (fun a b => ord a ≤ ord b)
      (List.mergeSort l (fun a b => decide (ord a ≤ ord b))) := by
  have h := List.sorted_mergeSort
    (fun a b c hab hbc => by
      have hab' : ord a ≤ ord b := of_decide_eq_true hab
      have hbc' : ord b ≤ ord c := of_decide_eq_true hbc
      exact decide_eq_true (le_trans hab' hbc'))
    (fun a b => by
      rcases le_total (ord a) (ord b) with h | h
      · exact Bool.or_eq_true_iff.mpr (Or.inl (decide_eq_true h))
      · exact Bool.or_eq_true_iff.mpr (Or.inr (decide_eq_true h)))
    l
  exact h.imp (fun hab => of_decide_eq_true hab)

/-! ## Claim theorems -/

/-- Claim C1: for every tab id, `deleteTab` also deletes every bookmark
and every section whose `tabId` equals that id — the bookmark and
section maps afterwards are exactly the old ones with the matching
records filtered out — and after a successful delete no bookmark or
section referencing the deleted tab remains in the store, nor the tab
itself. -/
theorem C1_deleteTab_cascades (s : Store) (id : Int) (h : Inv s) :
    (deleteTab s id).2.bookmarks
        = s.bookmarks.filter (fun p => p.2.tabId != id)
  ∧ (deleteTab s id).2.sections
        = s.sections.filter (fun p => p.2.tabId != id)
  ∧ ((deleteTab s id).1 = true →
        (∀ b ∈ mapValues (deleteTab s id).2.bookmarks, b.tabId ≠ id)
      ∧ (∀ c ∈ mapValues (deleteTab s id).2.sections, c.tabId ≠ id)
      ∧ getTab (deleteTab s id).2 id = none) := by
  rw [deleteTab_eq s id h]
  refine ⟨rfl, rfl, fun _ => ⟨?_, ?_, ?_⟩⟩
  · intro b hb
    rw [mapValues, List.mem_map] at hb
    obtain ⟨p, hp, rfl⟩ := hb
    have h2 := (List.mem_filter.mp hp).2
    intro hc
    simp [bne, hc] at h2
  · intro c hc
    rw [mapValues, List.mem_map] at hc
    obtain ⟨p, hp, rfl⟩ := hc
    have h2 := (List.mem_filter.mp hp).2
    intro hc2
    simp [bne, hc2] at h2
  · exact mapGet_mapErase_self s.tabs id

/-- Witness for C1 at the initial store and tab id 1. -/
theorem C1_deleteTab_cascades_witness :
    Inv initialStore
  ∧ (deleteTab initialStore 1).2.bookmarks
      = initialStore.bookmarks.filter (fun p => p.2.tabId != 1) :=
  ⟨inv_initialStore, (C1_deleteTab_cascades initialStore 1 inv_initialStore).1⟩

/-- Claim C3: for each record type, creating a record from valid input
and fetching it by the returned id yields exactly the submitted fields
plus the freshly assigned id. -/
theorem C3_create_then_fetch (s : Store) (t : InsertTab)
    (b : InsertBookmark) (c : InsertSection) :
    ((createTab s t).1.name = t.name
      ∧ (createTab s t).1.order = t.order
      ∧ (createTab s t).1.backgroundImage = t.backgroundImage
      ∧ (createTab s t).1.autoSwitch = t.autoSwitch
      ∧ (createTab s t).1.id = s.tabIdCounter
      ∧ getTab (createTab s t).2 (createTab s t).1.id
          = some (createTab s t).1)
  ∧ ((createBookmark s b).1.tabId = b.tabId
      ∧ (createBookmark s b).1.url = b.url
      ∧ (createBookmark s b).1.title = b.title
      ∧ (createBookmark s b).1.favicon = b.favicon
      ∧ (createBookmark s b).1.sectionName = b.sectionName
      ∧ (createBookmark s b).1.order = b.order
      ∧ (createBookmark s b).1.id = s.bookmarkIdCounter
      ∧ getBookmark (createBookmark s b).2 (createBookmark s b).1.id
          = some (createBookmark s b).1)
  ∧ ((createSection s c).1.tabId = c.tabId
      ∧ (createSection s c).1.name = c.name
      ∧ (createSection s c).1.color = c.color
      ∧ (createSection s c).1.order = c.order
      ∧ (createSection s c).1.id = s.sectionIdCounter
      ∧ getSection (createSection s c).2 (createSection s c).1.id
          = some (createSection s c).1) := by
  refine ⟨⟨rfl, rfl, rfl, rfl, rfl, ?_⟩,
          ⟨rfl, rfl, rfl, rfl, rfl, rfl, rfl, ?_⟩,
          ⟨rfl, rfl, rfl, rfl, rfl, ?_⟩⟩
  · exact mapGet_mapSet_self s.tabs s.tabIdCounter _
  · exact mapGet_mapSet_self s.bookmarks s.bookmarkIdCounter _
  · exact mapGet_mapSet_self s.sections s.sectionIdCounter _

/-- Claim C4: for every existing record and partial update, the update
merges the supplied fields into the record (fields named in the patch
take their new values, fields not named keep their old values, the id
is untouched), and the merged record is both the return value and what
a subsequent fetch by id returns. -/
theorem C4_update_merges (s : Store) (id : Int) (pt : TabPatch)
    (pb : BookmarkPatch) (pc : SectionPatch) :
    (∀ t0, getTab s id = some t0 →
        (updateTab s id pt).1 = some (mergeTab t0 pt)
      ∧ MergesTab t0 pt (mergeTab t0 pt)
      ∧ getTab (updateTab s id pt).2 id = some (mergeTab t0 pt))
  ∧ (∀ b0, getBookmark s id = some b0 →
        (updateBookmark s id pb).1 = some (mergeBookmark b0 pb)
      ∧ MergesBookmark b0 pb (mergeBookmark b0 pb)
      ∧ getBookmark (updateBookmark s id pb).2 id
          = some (mergeBookmark b0 pb))
  ∧ (∀ c0, getSection s id = some c0 →
        (updateSection s id pc).1 = some (mergeSection c0 pc)
      ∧ MergesSection c0 pc (mergeSection c0 pc)
      ∧ getSection (updateSection s id pc).2 id
          = some (mergeSection c0 pc)) := by
  refine ⟨?_, ?_, ?_⟩
  · intro t0 hg
    have hg' : mapGet s.tabs id = some t0 := hg
    refine ⟨?_, mergesTab_mergeTab t0 pt, ?_⟩
    · simp [updateTab, hg']
    · show mapGet (updateTab s id pt).2.tabs id = some (mergeTab t0 pt)
      simp only [updateTab, hg']
      exact mapGet_mapSet_self s.tabs id _
  · intro b0 hg
    have hg' : mapGet s.bookmarks id = some b0 := hg
    refine ⟨?_, mergesBookmark_mergeBookmark b0 pb, ?_⟩
    · simp [updateBookmark, hg']
    · show mapGet (updateBookmark s id pb).2.bookmarks id
        = some (mergeBookmark b0 pb)
      simp only [updateBookmark, hg']
      exact mapGet_mapSet_self s.bookmarks id _
  · intro c0 hg
    have hg' : mapGet s.sections id = some c0 := hg
    refine ⟨?_, mergesSection_mergeSection c0 pc, ?_⟩
    · simp [updateSection, hg']
    · show mapGet (updateSection s id pc).2.sections id
        = some (mergeSection c0 pc)
      simp only [updateSection, hg']
      exact mapGet_mapSet_self s.sections id _

/-- Witness for C4: renaming tab 1 of the initial store. -/
theorem C4_update_merges_witness :
    getTab initialStore 1 = some cartoonsTab
  ∧ (updateTab initialStore 1 renamePatch).1
      = some (mergeTab cartoonsTab renamePatch) :=
  ⟨by decide,
   ((C4_update_merges initialStore 1 renamePatch emptyBookmarkPatch
      emptySectionPatch).1 cartoonsTab (by decide)).1⟩

/-- Claim C9: referential integrity between `bookmark.sectionName` and
stored section names is never checked: a bookmark whose `sectionName`
matches no section is created (and updated) successfully and stored
verbatim. -/
theorem C9_sectionName_unchecked :
    ((mapValues initialStore.sections).all
        (fun c => c.name != "Ghost Section") = true)
  ∧ (createBookmark initialStore ghostBookmark).1.sectionName
      = "Ghost Section"
  ∧ getBookmark (createBookmark initialStore ghostBookmark).2
      (createBookmark initialStore ghostBookmark).1.id
      = some (createBookmark initialStore ghostBookmark).1
  ∧ ((mapValues initialStore.sections).all
        (fun c => c.name != "Phantom Section") = true)
  ∧ ((updateBookmark (createBookmark initialStore ghostBookmark).2 5
        phantomPatch).1.map Bookmark.sectionName)
      = some "Phantom Section" := by
  refine ⟨by decide, rfl, ?_, by decide, by decide⟩
  exact mapGet_mapSet_self initialStore.bookmarks 5 _

/-- Claim C10 (counterexample): `deleteTab` on an id absent from the
tabs map is not atomic: with a bookmark referencing the nonexistent
tab 5, `deleteTab 5` returns `false` yet deletes that bookmark. -/
theorem C10_counterexample :
    getTab orphanStore 5 = none
  ∧ (deleteTab orphanStore 5).1 = false
  ∧ mapHas orphanStore.bookmarks 5 = true
  ∧ mapHas (deleteTab orphanStore 5).2.bookmarks 5 = false := by
  decide

/-- Claim C10 as amended: for an id absent from the tabs map,
`deleteTab` returns `false` and leaves the tabs map unchanged, but it
still deletes every bookmark and section whose `tabId` equals that id —
the cascade runs regardless of whether the tab exists. -/
theorem C10_amended_delete_absent (s : Store) (id : Int) (h : Inv s)
    (habs : getTab s id = none) :
    (deleteTab s id).1 = false
  ∧ (deleteTab s id).2.tabs = s.tabs
  ∧ (deleteTab s id).2.bookmarks
      = s.bookmarks.filter (fun p => p.2.tabId != id)
  ∧ (deleteTab s id).2.sections
      = s.sections.filter (fun p => p.2.tabId != id) := by
  have habs' : mapGet s.tabs id = none := habs
  rw [deleteTab_eq s id h]
  refine ⟨?_, ?_, rfl, rfl⟩
  · rw [mapHas_eq_isSome, habs']
    rfl
  · exact mapErase_of_get_none habs'

/-- Witness for the amended C10 at `orphanStore` and tab id 5. -/
theorem C10_amended_delete_absent_witness :
    Inv orphanStore ∧ getTab orphanStore 5 = none
  ∧ (deleteTab orphanStore 5).1 = false :=
  ⟨by decide, by decide,
   (C10_amended_delete_absent orphanStore 5 (by decide) (by decide)).1⟩

/-- Claim C5: for every record type, deleting a present id returns
`true` and surfaces as HTTP 204; an immediately repeated delete of the
same id returns `false`, surfaces as 404, and leaves the store
unchanged. -/
theorem C5_delete_twice (s : Store) (id : Int) (h : Inv s) :
    (getTab s id ≠ none →
        (deleteTab s id).1 = true ∧ (deleteTabHandler s id).1 = 204)
  ∧ ((deleteTab (deleteTab s id).2 id).1 = false
      ∧ (deleteTabHandler (deleteTab s id).2 id).1 = 404
      ∧ (deleteTab (deleteTab s id).2 id).2 = (deleteTab s id).2)
  ∧ (getBookmark s id ≠ none →
        (deleteBookmark s id).1 = true
      ∧ (deleteBookmarkHandler s id).1 = 204)
  ∧ ((deleteBookmark (deleteBookmark s id).2 id).1 = false
      ∧ (deleteBookmarkHandler (deleteBookmark s id).2 id).1 = 404
      ∧ (deleteBookmark (deleteBookmark s id).2 id).2
          = (deleteBookmark s id).2)
  ∧ (getSection s id ≠ none →
        (deleteSection s id).1 = true
      ∧ (deleteSectionHandler s id).1 = 204)
  ∧ ((deleteSection (deleteSection s id).2 id).1 = false
      ∧ (deleteSectionHandler (deleteSection s id).2 id).1 = 404
      ∧ (deleteSection (deleteSection s id).2 id).2
          = (deleteSection s id).2) := by
  have hinv1 : Inv (deleteTab s id).2 := inv_deleteTab s id h
  have e1 := deleteTab_eq s id h
  have e2 := deleteTab_eq (deleteTab s id).2 id hinv1
  have hhas2 : mapHas (deleteTab s id).2.tabs id = false := by
    rw [deleteTab_tabs]
    exact mapHas_mapErase_self s.tabs id
  refine ⟨?_, ⟨?_, ?_, ?_⟩, ?_, ⟨?_, ?_, ?_⟩, ?_, ⟨?_, ?_, ?_⟩⟩
  · intro hne
    have hsome : (mapGet s.tabs id).isSome = true :=
      Option.isSome_iff_ne_none.mpr hne
    have htrue : mapHas s.tabs id = true := by
      rw [mapHas_eq_isSome]
      exact hsome
    exact ⟨htrue, by simp [deleteTabHandler, deleteTab_fst, htrue]⟩
  · rw [deleteTab_fst]
    exact hhas2
  · simp [deleteTabHandler, deleteTab_fst, hhas2]
  · rw [e2]
    apply Store.ext' <;> try rfl
    · show mapErase (deleteTab s id).2.tabs id = (deleteTab s id).2.tabs
      rw [deleteTab_tabs]
      exact mapErase_mapErase_self s.tabs id
    · show (deleteTab s id).2.bookmarks.filter (fun p => p.2.tabId != id)
        = (deleteTab s id).2.bookmarks
      rw [e1]
      exact filter_idem _ s.bookmarks
    · show (deleteTab s id).2.sections.filter (fun p => p.2.tabId != id)
        = (deleteTab s id).2.sections
      rw [e1]
      exact filter_idem _ s.sections
  · intro hne
    have htrue : mapHas s.bookmarks id = true := by
      rw [mapHas_eq_isSome]
      exact Option.isSome_iff_ne_none.mpr hne
    refine ⟨htrue, ?_⟩
    show (if (deleteBookmark s id).1 then 204 else 404) = 204
    have : (deleteBookmark s id).1 = true := htrue
    rw [this]
    rfl
  · show mapHas (mapErase s.bookmarks id) id = false
    exact mapHas_mapErase_self s.bookmarks id
  · show (if (deleteBookmark (deleteBookmark s id).2 id).1
        then 204 else 404) = 404
    have : (deleteBookmark (deleteBookmark s id).2 id).1 = false :=
      mapHas_mapErase_self s.bookmarks id
    rw [this]
    rfl
  · apply Store.ext' <;> try rfl
    show mapErase (mapErase s.bookmarks id) id = mapErase s.bookmarks id
    exact mapErase_mapErase_self s.bookmarks id
  · intro hne
    have htrue : mapHas s.sections id = true := by
      rw [mapHas_eq_isSome]
      exact Option.isSome_iff_ne_none.mpr hne
    refine ⟨htrue, ?_⟩
    show (if (deleteSection s id).1 then 204 else 404) = 204
    have : (deleteSection s id).1 = true := htrue
    rw [this]
    rfl
  · show mapHas (mapErase s.sections id) id = false
    exact mapHas_mapErase_self s.sections id
  · show (if (deleteSection (deleteSection s id).2 id).1
        then 204 else 404) = 404
    have : (deleteSection (deleteSection s id).2 id).1 = false :=
      mapHas_mapErase_self s.sections id
    rw [this]
    rfl
  · apply Store.ext' <;> try rfl
    show mapErase (mapErase s.sections id) id = mapErase s.sections id
    exact mapErase_mapErase_self s.sections id

/-- Witness for C5 at the initial store and id 1. -/
theorem C5_delete_twice_witness :
    Inv initialStore ∧ getTab initialStore 1 ≠ none
  ∧ (deleteTab initialStore 1).1 = true
  ∧ (deleteTabHandler initialStore 1).1 = 204 :=
  ⟨inv_initialStore, by decide,
   ((C5_delete_twice initialStore 1 inv_initialStore).1 (by decide)).1,
   ((C5_delete_twice initialStore 1 inv_initialStore).1 (by decide)).2⟩

/-- Claim C2 (counterexample): a `PATCH /api/settings` body that fails
the settings schema (`theme` must be a string, here it is the number 5)
is nevertheless accepted with status 200, not rejected with 400 — the
settings route never validates. -/
theorem C2_counterexample :
    parseSettingsPatch [("theme", JVal.jnum 5)] = none
  ∧ (patchSettingsHandler initialStore [("theme", JVal.jnum 5)]).1 = 200
  ∧ (200 : Nat) ≠ 400 := by
  refine ⟨by decide, rfl, by decide⟩

/-- Claim C2 as amended: for the tab, bookmark and section write
endpoints a body failing schema validation yields 400 (leaving the
store unchanged), a PATCH or DELETE of an id not in the store yields
404, and success yields 201/200/204; `PATCH /api/settings` performs no
schema validation and answers 200 for every body.  (The 500 branches
are reachable only by a non-Zod exception, which the in-memory store
never throws.) -/
theorem C2_amended_status_codes (s : Store) (id : Int) (body : JObj) :
    (parseInsertTab body = none → postTabsHandler s body = (400, s))
  ∧ (parseInsertTab body ≠ none → (postTabsHandler s body).1 = 201)
  ∧ (parseTabPatch body = none → patchTabHandler s id body = (400, s))
  ∧ (parseTabPatch body ≠ none → getTab s id = none →
        patchTabHandler s id body = (404, s))
  ∧ (parseTabPatch body ≠ none → getTab s id ≠ none →
        (patchTabHandler s id body).1 = 200)
  ∧ (getTab s id = none → (deleteTabHandler s id).1 = 404)
  ∧ (getTab s id ≠ none → (deleteTabHandler s id).1 = 204)
  ∧ (parseInsertBookmark body = none →
        postBookmarksHandler s body = (400, s))
  ∧ (parseInsertBookmark body ≠ none →
        (postBookmarksHandler s body).1 = 201)
  ∧ (parseBookmarkPatch body = none →
        patchBookmarkHandler s id body = (400, s))
  ∧ (parseBookmarkPatch body ≠ none → getBookmark s id = none →
        patchBookmarkHandler s id body = (404, s))
  ∧ (parseBookmarkPatch body ≠ none → getBookmark s id ≠ none →
        (patchBookmarkHandler s id body).1 = 200)
  ∧ (getBookmark s id = none → (deleteBookmarkHandler s id).1 = 404)
  ∧ (getBookmark s id ≠ none → (deleteBookmarkHandler s id).1 = 204)
  ∧ (parseInsertSection body = none →
        postSectionsHandler s body = (400, s))
  ∧ (parseInsertSection body ≠ none →
        (postSectionsHandler s body).1 = 201)
  ∧ (parseSectionPatch body = none →
        patchSectionHandler s id body = (400, s))
  ∧ (parseSectionPatch body ≠ none → getSection s id = none →
        patchSectionHandler s id body = (404, s))
  ∧ (parseSectionPatch body ≠ none → getSection s id ≠ none →
        (patchSectionHandler s id body).1 = 200)
  ∧ (getSection s id = none → (deleteSectionHandler s id).1 = 404)
  ∧ (getSection s id ≠ none → (deleteSectionHandler s id).1 = 204)
  ∧ (patchSettingsHandler s body).1 = 200 := by
  refine ⟨?_, ?_, ?_, ?_, ?_, ?_, ?_, ?_, ?_, ?_, ?_, ?_, ?_, ?_, ?_, ?_,
          ?_, ?_, ?_, ?_, ?_, rfl⟩
  · intro hp
    simp [postTabsHandler, hp]
  · intro hp
    cases hc : parseInsertTab body with
    | none => exact absurd hc hp
    | some d => simp [postTabsHandler, hc]
  · intro hp
    simp [patchTabHandler, hp]
  · intro hp hg
    have hg' : mapGet s.tabs id = none := hg
    cases hc : parseTabPatch body with
    | none => exact absurd hc hp
    | some p => simp [patchTabHandler, hc, updateTab, hg']
  · intro hp hg
    obtain ⟨t0, hg'⟩ := Option.ne_none_iff_exists'.mp hg
    have hg'' : mapGet s.tabs id = some t0 := hg'
    cases hc : parseTabPatch body with
    | none => exact absurd hc hp
    | some p => simp [patchTabHandler, hc, updateTab, hg'']
  · intro hg
    have hg' : mapGet s.tabs id = none := hg
    have hfalse : mapHas s.tabs id = false := by
      rw [mapHas_eq_isSome, hg']
      rfl
    simp [deleteTabHandler, deleteTab_fst, hfalse]
  · intro hg
    have htrue : mapHas s.tabs id = true := by
      rw [mapHas_eq_isSome]
      exact Option.isSome_iff_ne_none.mpr hg
    simp [deleteTabHandler, deleteTab_fst, htrue]
  · intro hp
    simp [postBookmarksHandler, hp]
  · intro hp
    cases hc : parseInsertBookmark body with
    | none => exact absurd hc hp
    | some d => simp [postBookmarksHandler, hc]
  · intro hp
    simp [patchBookmarkHandler, hp]
  · intro hp hg
    have hg' : mapGet s.bookmarks id = none := hg
    cases hc : parseBookmarkPatch body with
    | none => exact absurd hc hp
    | some p => simp [patchBookmarkHandler, hc, updateBookmark, hg']
  · intro hp hg
    obtain ⟨b0, hg'⟩ := Option.ne_none_iff_exists'.mp hg
    have hg'' : mapGet s.bookmarks id = some b0 := hg'
    cases hc : parseBookmarkPatch body with
    | none => exact absurd hc hp
    | some p => simp [patchBookmarkHandler, hc, updateBookmark, hg'']
  · intro hg
    have hg' : mapGet s.bookmarks id = none := hg
    have hfalse : mapHas s.bookmarks id = false := by
      rw [mapHas_eq_isSome, hg']
      rfl
    show (if (deleteBookmark s id).1 then 204 else 404) = 404
    have : (deleteBookmark s id).1 = false := hfalse
    rw [this]
    rfl
  · intro hg
    have htrue : mapHas s.bookmarks id = true := by
      rw [mapHas_eq_isSome]
      exact Option.isSome_iff_ne_none.mpr hg
    show (if (deleteBookmark s id).1 then 204 else 404) = 204
    have : (deleteBookmark s id).1 = true := htrue
    rw [this]
    rfl
  · intro hp
    simp [postSectionsHandler, hp]
  · intro hp
    cases hc : parseInsertSection body with
    | none => exact absurd hc hp
    | some d => simp [postSectionsHandler, hc]
  · intro hp
    simp [patchSectionHandler, hp]
  · intro hp hg
    have hg' : mapGet s.sections id = none := hg
    cases hc : parseSectionPatch body with
    | none => exact absurd hc hp
    | some p => simp [patchSectionHandler, hc, updateSection, hg']
  · intro hp hg
    obtain ⟨c0, hg'⟩ := Option.ne_none_iff_exists'.mp hg
    have hg'' : mapGet s.sections id = some c0 := hg'
    cases hc : parseSectionPatch body with
    | none => exact absurd hc hp
    | some p => simp [patchSectionHandler, hc, updateSection, hg'']
  · intro hg
    have hg' : mapGet s.sections id = none := hg
    have hfalse : mapHas s.sections id = false := by
      rw [mapHas_eq_isSome, hg']
      rfl
    show (if (deleteSection s id).1 then 204 else 404) = 404
    have : (deleteSection s id).1 = false := hfalse
    rw [this]
    rfl
  · intro hg
    have htrue : mapHas s.sections id = true := by
      rw [mapHas_eq_isSome]
      exact Option.isSome_iff_ne_none.mpr hg
    show (if (deleteSection s id).1 then 204 else 404) = 204
    have : (deleteSection s id).1 = true := htrue
    rw [this]
    rfl

/-- Witness for the amended C2: an empty body fails the tab insert
schema and `POST /api/tabs` answers 400 with the store untouched. -/
theorem C2_amended_status_codes_witness :
    parseInsertTab [] = none
  ∧ postTabsHandler initialStore [] = (400, initialStore) :=
  ⟨rfl, (C2_amended_status_codes initialStore 0 []).1 rfl⟩

/-- Claim C7 (counterexample): supplying the filter `tabId=0` to
`GET /api/bookmarks` does not restrict the result to records with
`tabId = 0` — the JavaScript truthiness test treats 0 as "no filter"
and every bookmark (here with `tabId = 1`) is returned; moreover the
unfiltered listing is not sorted by `order` (after creating a bookmark
with `order` 0 the listing ends with orders `[1,2,3,4,0]`). -/
theorem C7_counterexample :
    ((getBookmarksHandler initialStore (some 0)).any
        (fun b => b.tabId != 0) = true)
  ∧ ¬ List.Pairwise (fun a b : Bookmark => a.order ≤ b.order)
      (getBookmarks (createBookmark initialStore lateBookmark).2) := by
  refine ⟨by decide, by decide⟩

/-- Claim C7 as amended: the storage-level filtered listings return
exactly the records with the requested `tabId` (for every value,
including 0), sorted ascending by `order`; `getTabs` returns all tab
values sorted by `order`; the unfiltered bookmark and section listings
return all map values without sorting; and at the route level a
supplied `tabId` of 0 falls through to the unfiltered listing. -/
theorem C7_amended_lists (s : Store) (tid : Int) :
    List.Pairwise (fun a b : Tab => a.order ≤ b.order) (getTabs s)
  ∧ (getTabs s).Perm (mapValues s.tabs)
  ∧ List.Pairwise (fun a b : Bookmark => a.order ≤ b.order)
      (getBookmarksByTab s tid)
  ∧ (getBookmarksByTab s tid).Perm
      ((mapValues s.bookmarks).filter (fun b => b.tabId == tid))
  ∧ (∀ b ∈ getBookmarksByTab s tid, b.tabId = tid)
  ∧ (∀ b ∈ mapValues s.bookmarks, b.tabId = tid →
        b ∈ getBookmarksByTab s tid)
  ∧ List.Pairwise (fun a b : Section => a.order ≤ b.order)
      (getSectionsByTab s tid)
  ∧ (getSectionsByTab s tid).Perm
      ((mapValues s.sections).filter (fun c => c.tabId == tid))
  ∧ (∀ c ∈ getSectionsByTab s tid, c.tabId = tid)
  ∧ (∀ c ∈ mapValues s.sections, c.tabId = tid →
        c ∈ getSectionsByTab s tid)
  ∧ getBookmarks s = mapValues s.bookmarks
  ∧ getSections s = mapValues s.sections
  ∧ getBookmarksHandler s (some 0) = mapValues s.bookmarks
  ∧ getSectionsHandler s (some 0) = mapValues s.sections := by
  refine ⟨pairwise_mergeSort_order Tab.order (mapValues s.tabs),
          List.mergeSort_perm (mapValues s.tabs) _,
          pairwise_mergeSort_order Bookmark.order _,
          List.mergeSort_perm _ _,
          ?_, ?_,
          pairwise_mergeSort_order Section.order _,
          List.mergeSort_perm _ _,
          ?_, ?_, rfl, rfl, ?_, ?_⟩
  · intro b hb
    rw [getBookmarksByTab, List.mem_mergeSort, List.mem_filter] at hb
    simpa using hb.2
  · intro b hb htid
    rw [getBookmarksByTab, List.mem_mergeSort, List.mem_filter]
    exact ⟨hb, by simpa using htid⟩
  · intro c hc
    rw [getSectionsByTab, List.mem_mergeSort, List.mem_filter] at hc
    simpa using hc.2
  · intro c hc htid
    rw [getSectionsByTab, List.mem_mergeSort, List.mem_filter]
    exact ⟨hc, by simpa using htid⟩
  · simp [getBookmarksHandler, getBookmarks]
  · simp [getSectionsHandler, getSections]

/-- Witness for the amended C7: the Google bookmark of the initial
store belongs to tab 1 and appears in `getBookmarksByTab 1`. -/
theorem C7_amended_lists_witness :
    googleBookmark ∈ mapValues initialStore.bookmarks
  ∧ googleBookmark.tabId = 1
  ∧ googleBookmark ∈ getBookmarksByTab initialStore 1 :=
  ⟨by decide, by decide,
   (C7_amended_lists initialStore 1).2.2.2.2.2.1 googleBookmark
     (by decide) (by decide)⟩

/-- Claim C8 (counterexample): the theme invariant does not hold — one
reachable `PATCH /api/settings` call stores `theme = "purple"`, which
is none of `light`/`dark`/`system`. -/
theorem C8_counterexample :
    jlookup "theme" ((patchSettingsHandler initialStore
        [("theme", JVal.jstr "purple")]).2.settings)
      = some (JVal.jstr "purple")
  ∧ JVal.jstr "purple" ≠ JVal.jstr "light"
  ∧ JVal.jstr "purple" ≠ JVal.jstr "dark"
  ∧ JVal.jstr "purple" ≠ JVal.jstr "system" := by
  refine ⟨by decide, by decide, by decide, by decide⟩

/-- Claim C8 as amended: the settings record is a singleton (the stored
record is the one `updateSettings` returns) and its theme is initially
`"system"`, but `updateSettings` spreads the unvalidated body over the
record: any supplied value for a key is stored verbatim, keys not
supplied are unchanged — so the theme is not constrained to
light/dark/system. -/
theorem C8_amended_settings (s : Store) (body : JObj) (k : String)
    (v : JVal) :
    jlookup "theme" initialStore.settings = some (JVal.jstr "system")
  ∧ (updateSettings s body).2.settings = (updateSettings s body).1
  ∧ (jlookup k body = some v →
        jlookup k (updateSettings s body).1 = some v)
  ∧ (jlookup k body = none →
        jlookup k (updateSettings s body).1 = jlookup k s.settings) := by
  refine ⟨by decide, rfl, ?_, ?_⟩
  · intro h
    exact jlookup_jsonSpread_of_some h s.settings
  · intro h
    exact jlookup_jsonSpread_of_none h s.settings

/-- Witness for the amended C8: patching the theme to `"purple"`
stores `"purple"`. -/
theorem C8_amended_settings_witness :
    jlookup "theme" [("theme", JVal.jstr "purple")]
      = some (JVal.jstr "purple")
  ∧ jlookup "theme"
      (updateSettings initialStore [("theme", JVal.jstr "purple")]).1
      = some (JVal.jstr "purple") :=
  ⟨by decide,
   (C8_amended_settings initialStore [("theme", JVal.jstr "purple")]
      "theme" (JVal.jstr "purple")).2.2.1 (by decide)⟩

/-- Claim C6: ids are assigned from a per-type auto-incrementing
counter: in every state reachable by a sequence of storage operations
the stored ids of each type are pairwise distinct; two successive
creates assign strictly increasing ids; and a freshly assigned id is
strictly greater than the id of any record of that type present at any
earlier point of the run (hence never collides with an id of a
since-deleted record). -/
theorem C6_ids_auto_increment (l1 l2 : List Op) (t t' : InsertTab)
    (b b' : InsertBookmark) (c c' : InsertSection) :
    ((mapValues (runOps initialStore (l1 ++ l2)).tabs).map Tab.id).Nodup
  ∧ ((mapValues (runOps initialStore (l1 ++ l2)).bookmarks).map
        Bookmark.id).Nodup
  ∧ ((mapValues (runOps initialStore (l1 ++ l2)).sections).map
        Section.id).Nodup
  ∧ (createTab (runOps initialStore (l1 ++ l2)) t).1.id
      < (createTab (createTab (runOps initialStore (l1 ++ l2)) t).2
          t').1.id
  ∧ (createBookmark (runOps initialStore (l1 ++ l2)) b).1.id
      < (createBookmark (createBookmark (runOps initialStore (l1 ++ l2))
          b).2 b').1.id
  ∧ (createSection (runOps initialStore (l1 ++ l2)) c).1.id
      < (createSection (createSection (runOps initialStore (l1 ++ l2))
          c).2 c').1.id
  ∧ (∀ p ∈ (runOps initialStore l1).tabs,
        p.2.id < (createTab (runOps initialStore (l1 ++ l2)) t).1.id)
  ∧ (∀ p ∈ (runOps initialStore l1).bookmarks,
        p.2.id
          < (createBookmark (runOps initialStore (l1 ++ l2)) b).1.id)
  ∧ (∀ p ∈ (runOps initialStore l1).sections,
        p.2.id
          < (createSection (runOps initialStore (l1 ++ l2)) c).1.id) := by
  have hinv := inv_runOps (l1 ++ l2)
  have hinv1 := inv_runOps l1
  have hle : (runOps initialStore l1).tabIdCounter
        ≤ (runOps initialStore (l1 ++ l2)).tabIdCounter
      ∧ (runOps initialStore l1).bookmarkIdCounter
        ≤ (runOps initialStore (l1 ++ l2)).bookmarkIdCounter
      ∧ (runOps initialStore l1).sectionIdCounter
        ≤ (runOps initialStore (l1 ++ l2)).sectionIdCounter := by
    rw [runOps_append]
    exact counters_le_runOps (runOps initialStore l1) l2
  refine ⟨values_ids_nodup Tab.id hinv.1,
          values_ids_nodup Bookmark.id hinv.2.1,
          values_ids_nodup Section.id hinv.2.2, ?_, ?_, ?_, ?_, ?_, ?_⟩
  · show (runOps initialStore (l1 ++ l2)).tabIdCounter
      < (runOps initialStore (l1 ++ l2)).tabIdCounter + 1
    omega
  · show (runOps initialStore (l1 ++ l2)).bookmarkIdCounter
      < (runOps initialStore (l1 ++ l2)).bookmarkIdCounter + 1
    omega
  · show (runOps initialStore (l1 ++ l2)).sectionIdCounter
      < (runOps initialStore (l1 ++ l2)).sectionIdCounter + 1
    omega
  · intro p hp
    have h1 : p.2.id = p.1 := hinv1.1.1 p hp
    have h2 : p.1 < (runOps initialStore l1).tabIdCounter :=
      hinv1.1.2.2 p hp
    show p.2.id < (runOps initialStore (l1 ++ l2)).tabIdCounter
    have h3 := hle.1
    omega
  · intro p hp
    have h1 : p.2.id = p.1 := hinv1.2.1.1 p hp
    have h2 : p.1 < (runOps initialStore l1).bookmarkIdCounter :=
      hinv1.2.1.2.2 p hp
    show p.2.id < (runOps initialStore (l1 ++ l2)).bookmarkIdCounter
    have h3 := hle.2.1
    omega
  · intro p hp
    have h1 : p.2.id = p.1 := hinv1.2.2.1 p hp
    have h2 : p.1 < (runOps initialStore l1).sectionIdCounter :=
      hinv1.2.2.2.2 p hp
    show p.2.id < (runOps initialStore (l1 ++ l2)).sectionIdCounter
    have h3 := hle.2.2
    omega

/-- Witness for C6 on the empty run: the first default tab's id is
below the id a fresh create would assign. -/
theorem C6_ids_auto_increment_witness :
    (1, cartoonsTab) ∈ (runOps initialStore []).tabs
  ∧ (1, cartoonsTab).2.id
      < (createTab (runOps initialStore ([] ++ [])) sampleInsertTab).1.id :=
  ⟨by decide,
   (C6_ids_auto_increment [] [] sampleInsertTab sampleInsertTab
      sampleInsertBookmark sampleInsertBookmark sampleInsertSection
      sampleInsertSection).2.2.2.2.2.2.1 (1, cartoonsTab) (by decide)⟩

end Croods
